import Mathlib

/-!
Verification of the medication dose-schedule projection logic of the
health-demo repository.

The projector lives in `src/src/MedicationTimeline/MedicationCard.tsx`
(the full version, `getMedicationSchedule` at lines 1299-1583, together
with its helpers `timesForFrequency` and `categoryToTime`).  Two older,
divergent copies of the projection logic exist as well: one at lines
485-529 of the same file (modelled below as `getMedicationScheduleV1`)
and one in `src/unnamed/part_002` lines 112-155 (`getMedicationScheduleV2`).

Modelling conventions:
- Calendar dates are compared at day granularity only.  A `Date` that has
  been normalized to midnight is modelled as an integer day number, with
  the convention that day number 0 falls on a Sunday; then
  `Math.floor((date - start) / 86400000)` is `dateDay - startDay` and
  JavaScript's `date.getDay()` is `dayOfWeek dateDay` below.
- JavaScript numbers holding frequencies, periods and durations are
  modelled as `Nat`; day differences as `Int`.
- `undefined` optional fields are `Option.none`.  JavaScript truthiness
  (`x || d`, where both `undefined` and `0`/`""` are falsy) is modelled
  by `jsOrNat` / `jsOrStr`.
- `Math.round` on the nonnegative quotients appearing in the code
  (`8 + (12/(f-1))*i` and `i*7/f`) is modelled exactly over ℚ; the code
  definitions use the equivalent natural-number form
  `Math.round(a/b) = (2*a + b) / (2*b)` (floor division), and the bridge
  to `round : ℚ → ℤ` is proved as a lemma.
-/

/-! ## Data model, from `src/src/MedicationTimeline/types.ts` -/

/-- Strength of a medication (display only; unused by the projector). -/
structure Strength where
  amount : Int := 0
  unit : String := ""
deriving Repr, DecidableEq

/-- One timing phase of a medication regimen (`interface Timing`). -/
structure Timing where
  orderInSequence : Option Nat := none
  doseAmount : Int := 1
  doseUnit : Option String := none
  frequency : Option Nat := none
  frequencyMax : Option Nat := none
  period : Option Nat := none
  periodMax : Option Nat := none
  periodUnit : Option String := none
  duration : Option Nat := none
  durationUnit : Option String := none
  count : Option Nat := none
  isAsNeeded : Bool := false
  specificTimes : Option (List String) := none
  timeCategories : Option (List String) := none
  weekdays : Option (List String) := none
  rawText : Option String := none
deriving Repr, DecidableEq

/-- A medication record (`interface MedicationStatement`). -/
structure MedicationStatement where
  medication : String := ""
  brandName : Option String := none
  genericName : Option String := none
  rxnormCode : String := ""
  form : Option String := none
  timingSequence : List Timing
  strength : Strength := {}
  sourceText : String := ""
deriving Repr, DecidableEq

/-- Origin of the times of a schedule (`source: 'explicit' | 'calculated'`). -/
inductive ScheduleSource where
  | explicit
  | calculated
deriving Repr, DecidableEq

/-- Projector output (`interface MedicationSchedule`).  Fields that a given
return site of the JavaScript code omits are `none`. -/
structure MedicationSchedule where
  asNeeded : Option Bool := none
  max : Option Nat := none
  times : Option (List String) := none
  doseAmount : Int := 0
  doseUnit : Option String := none
  source : Option ScheduleSource := none
  explicitWeekdays : Option (List String) := none
  timeCategories : Option (List String) := none
deriving Repr, DecidableEq

/-! ## JavaScript semantics helpers -/

/-- JavaScript `x || d` for an optional number: `undefined` and `0` are falsy. -/
def jsOrNat : Option Nat → Nat → Nat
  | none, d => d
  | some 0, d => d
  | some (n + 1), _ => n + 1

/-- JavaScript `n || d` for a number already at hand: `0` is falsy. -/
def jsOrZero (n d : Nat) : Nat :=
  if n = 0 then d else n

/-- JavaScript `s || d` for an optional string: `undefined` and `""` are falsy. -/
def jsOrStr : Option String → String → String
  | none, d => d
  | some s, d => if s = "" then d else s

/-- Model of `s.toLowerCase()` (character-wise, as for the ASCII strings involved). -/
def toLowerStr (s : String) : String := ⟨s.data.map Char.toLower⟩

/-- Model of `s.startsWith(p)`. -/
def strStartsWith (s p : String) : Bool := decide (p.data <+: s.data)

/-- Model of `s.includes(p)` (substring containment). -/
def strContainsSub (s p : String) : Bool := decide (p.data <:+: s.data)

/-- JavaScript `weekdayNames` array: `date.getDay()` is 0 for Sunday. -/
def weekdayNames : List String :=
  ["sunday", "monday", "tuesday", "wednesday", "thursday", "friday", "saturday"]

/-- Weekday `date.getDay()` of the date whose day number is `d` (day 0 is a Sunday). -/
def dayOfWeek (d : Int) : Nat := (d % 7).toNat

/-- Model of `Math.round(a / b)` for nonnegative `a` and positive `b`:
`⌊a/b + 1/2⌋ = (2*a + b) / (2*b)` in floor division. -/
def roundDiv (a b : Nat) : Nat := (2 * a + b) / (2 * b)

/-! ## `timesForFrequency` and `categoryToTime`
(`MedicationCard.tsx` lines 1310-1329 and 1437-1444) -/

/-- Model of `String(h).padStart(2, '0')` for the hour values in play. -/
def pad2 (n : Nat) : String :=
  if n < 10 then "0" ++ toString n else toString n

/-- Helper of the full projector: clock times for `frequency` doses per day.
For more than 4 doses the code computes `Math.round(8 + (12/(f-1))*i)`,
which on these nonnegative quotients equals `roundDiv (8*(f-1) + 12*i) (f-1)`. -/
def timesForFrequency (frequency : Nat) : List String :=
  if frequency ≤ 0 then []
  else if frequency = 1 then ["08:00"]
  else if frequency = 2 then ["08:00", "20:00"]
  else if frequency = 3 then ["08:00", "14:00", "20:00"]
  else if frequency = 4 then ["08:00", "12:00", "16:00", "20:00"]
  else
    (List.range frequency).map fun i =>
      pad2 (roundDiv (8 * (frequency - 1) + 12 * i) (frequency - 1)) ++ ":00"

/-- Helper `categoryToTime` of the full projector: map a time-category string to a
representative clock time (substring match on the lowercased category). -/
def categoryToTime (cat : String) : Option String :=
  let c := toLowerStr cat
  if strContainsSub c "morn" then some "08:00"
  else if strContainsSub c "noon" || strContainsSub c "afternoon" then some "14:00"
  else if strContainsSub c "even" || strContainsSub c "night" then some "20:00"
  else if strContainsSub c "bed" || strContainsSub c "bedtime" then some "22:00"
  else none

/-! ## The full projector (`MedicationCard.tsx` lines 1299-1583)

`daysDiff` is the day offset of the target date from the regimen start,
`dateWeekday`/`startWeekday` are `date.getDay()`/`startDate.getDay()`,
and `runningOffsetDays` is the running window start of the phase walk. -/

/-- Explicit-times branch of the full projector (lines 1366-1434): the phase
has a non-empty `specificTimes` list `st`. -/
def explicitTimesOccurrence (t : Timing) (st : List String) (daysDiff : Int)
    (dateWeekday : Nat) (runningOffsetDays : Nat) : Option MedicationSchedule :=
  let wd := t.weekdays.getD []
  if wd.length > 0 then
    let wdName := weekdayNames.getD dateWeekday ""
    let lowered := wd.map toLowerStr
    if lowered.contains wdName then
      some { times := some st, source := some .explicit, explicitWeekdays := t.weekdays,
             timeCategories := t.timeCategories,
             doseAmount := t.doseAmount, doseUnit := t.doseUnit }
    else none
  else
    let period := jsOrNat t.period 1
    let periodUnit := toLowerStr (jsOrStr t.periodUnit "day")
    if strStartsWith periodUnit "day" then
      let offsetDayIndex := daysDiff - runningOffsetDays
      if offsetDayIndex < 0 then none
      else if offsetDayIndex % (max 1 (period : Int)) ≠ 0 then none
      else
        some { times := some st, source := some .explicit,
               timeCategories := t.timeCategories,
               doseAmount := t.doseAmount, doseUnit := t.doseUnit }
    else if strStartsWith periodUnit "week" then
      let daysSinceOffset := daysDiff - runningOffsetDays
      if daysSinceOffset < 0 then none
      else if (daysSinceOffset / 7) % (max 1 (period : Int)) ≠ 0 then none
      else
        some { times := some st, source := some .explicit,
               timeCategories := t.timeCategories,
               doseAmount := t.doseAmount, doseUnit := t.doseUnit }
    else
      some { times := some st, source := some .explicit,
             doseAmount := t.doseAmount, doseUnit := t.doseUnit }

/-- Time-categories branch of the full projector (lines 1446-1515): the mapped
category times `mapped` are non-empty.  Same gating as the explicit branch,
but every return keeps `timeCategories`. -/
def categoryOccurrence (t : Timing) (mapped : List String) (daysDiff : Int)
    (dateWeekday : Nat) (runningOffsetDays : Nat) : Option MedicationSchedule :=
  let wd := t.weekdays.getD []
  if wd.length > 0 then
    let wdName := weekdayNames.getD dateWeekday ""
    let lowered := wd.map toLowerStr
    if lowered.contains wdName then
      some { times := some mapped, source := some .explicit, explicitWeekdays := t.weekdays,
             timeCategories := t.timeCategories,
             doseAmount := t.doseAmount, doseUnit := t.doseUnit }
    else none
  else
    let period := jsOrNat t.period 1
    let periodUnit := toLowerStr (jsOrStr t.periodUnit "day")
    if strStartsWith periodUnit "day" then
      let offsetDayIndex := daysDiff - runningOffsetDays
      if offsetDayIndex < 0 then none
      else if offsetDayIndex % (max 1 (period : Int)) ≠ 0 then none
      else
        some { times := some mapped, source := some .explicit,
               timeCategories := t.timeCategories,
               doseAmount := t.doseAmount, doseUnit := t.doseUnit }
    else if strStartsWith periodUnit "week" then
      let daysSinceOffset := daysDiff - runningOffsetDays
      if daysSinceOffset < 0 then none
      else if (daysSinceOffset / 7) % (max 1 (period : Int)) ≠ 0 then none
      else
        some { times := some mapped, source := some .explicit,
               timeCategories := t.timeCategories,
               doseAmount := t.doseAmount, doseUnit := t.doseUnit }
    else
      some { times := some mapped, source := some .explicit,
             timeCategories := t.timeCategories,
             doseAmount := t.doseAmount, doseUnit := t.doseUnit }

/-- Frequency/period calculated branch of the full projector (lines 1517-1577). -/
def calculatedOccurrence (t : Timing) (daysDiff : Int)
    (dateWeekday startWeekday : Nat) (runningOffsetDays : Nat) :
    Option MedicationSchedule :=
  let frequency := t.frequency.getD 0
  let period := jsOrNat t.period 1
  let periodUnit := toLowerStr (jsOrStr t.periodUnit "day")
  if strStartsWith periodUnit "day" then
    let offsetDayIndex := daysDiff - runningOffsetDays
    if offsetDayIndex < 0 then none
    else if offsetDayIndex % (max 1 (period : Int)) ≠ 0 then none
    else
      some { times := some (timesForFrequency (jsOrZero frequency 1)),
             source := some .calculated,
             doseAmount := t.doseAmount, doseUnit := t.doseUnit }
  else if strStartsWith periodUnit "week" then
    let daysSinceOffset := daysDiff - runningOffsetDays
    if daysSinceOffset < 0 then none
    else if (daysSinceOffset / 7) % (max 1 (period : Int)) ≠ 0 then none
    else
      let freq := min 7 (max 1 (jsOrZero frequency 1))
      let chosenWeekdays :=
        (List.range freq).map fun i => (startWeekday + roundDiv (i * 7) freq) % 7
      if chosenWeekdays.contains dateWeekday then
        some { times := some (timesForFrequency freq), source := some .calculated,
               doseAmount := t.doseAmount, doseUnit := t.doseUnit }
      else none
  else
    some { times := some (timesForFrequency (jsOrZero frequency 1)),
           source := some .calculated,
           doseAmount := t.doseAmount, doseUnit := t.doseUnit }

/-- Occurrence computation for a phase whose activation window contains the
target date (lines 1355-1577): as-needed, explicit times, time categories,
then the calculated path. -/
def computeOccurrence (t : Timing) (daysDiff : Int)
    (dateWeekday startWeekday : Nat) (runningOffsetDays : Nat) :
    Option MedicationSchedule :=
  if t.isAsNeeded then
    let freq := jsOrNat t.frequency 1
    some { asNeeded := some true, max := some (jsOrNat t.frequencyMax freq),
           doseAmount := t.doseAmount, doseUnit := t.doseUnit }
  else
    let st := t.specificTimes.getD []
    if st.length > 0 then
      explicitTimesOccurrence t st daysDiff dateWeekday runningOffsetDays
    else
      let cats := t.timeCategories.getD []
      let mapped := cats.filterMap categoryToTime
      if cats.length > 0 then
        if mapped.length = 0 then
          calculatedOccurrence t daysDiff dateWeekday startWeekday runningOffsetDays
        else categoryOccurrence t mapped daysDiff dateWeekday runningOffsetDays
      else calculatedOccurrence t daysDiff dateWeekday startWeekday runningOffsetDays

/-- Phase walk of the full projector (lines 1331-1353): skip phases whose
window does not contain `daysDiff`, advancing `runningOffsetDays` by the
phase's `durationDays = timing.duration || 0`. -/
def scheduleWalk (daysDiff : Int) (dateWeekday startWeekday : Nat) :
    List Timing → Nat → Option MedicationSchedule
  | [], _ => none
  | t :: rest, runningOffsetDays =>
    let durationDays := t.duration.getD 0
    if durationDays > 0 then
      if daysDiff < (runningOffsetDays : Int) ∨
          daysDiff ≥ ((runningOffsetDays + durationDays : Nat) : Int) then
        scheduleWalk daysDiff dateWeekday startWeekday rest
          (runningOffsetDays + durationDays)
      else computeOccurrence t daysDiff dateWeekday startWeekday runningOffsetDays
    else
      if daysDiff < (runningOffsetDays : Int) then
        scheduleWalk daysDiff dateWeekday startWeekday rest
          (runningOffsetDays + durationDays)
      else computeOccurrence t daysDiff dateWeekday startWeekday runningOffsetDays

/-- The full projector, `getMedicationSchedule` (lines 1299-1583).
`dateDay` and `currentDay` are the midnight day numbers of the target date
and of `currentDate` (the regimen start). -/
def getMedicationSchedule (med : MedicationStatement) (dateDay currentDay : Int) :
    Option MedicationSchedule :=
  scheduleWalk (dateDay - currentDay) (dayOfWeek dateDay) (dayOfWeek currentDay)
    med.timingSequence 0

/-! ## The two older, divergent copies of the projection logic

`getMedicationScheduleV1` is the copy at `MedicationCard.tsx` lines 485-529;
`getMedicationScheduleV2` is the copy in `src/unnamed/part_002` lines 112-155.
Both return the older schedule shape `{ asNeeded?, max?, times? }`, both
accumulate pushed times across loop iterations and return `{ times }` after
the loop; they differ in the duration-boundary comparison (`<=` in V1, `>=`
in V2) and in the no-duration case (V1 pushes `'08:00'` and returns, V2
returns `null`). -/

/-- Older projector output shape (`MedicationSchedule` of `src/unnamed/part_001`). -/
structure SimpleSchedule where
  asNeeded : Option Bool := none
  max : Option Nat := none
  times : Option (List String) := none
deriving Repr, DecidableEq

/-- Loop of the copy at `MedicationCard.tsx` lines 498-526.  The skip test is
`timing.duration && daysDiff <= timing.duration + durationSoFar`. -/
def scheduleLoopV1 (daysDiff : Int) :
    List Timing → Nat → List String → Option SimpleSchedule
  | [], _, times => some { times := some times }
  | t :: rest, durationSoFar, times =>
    let d := t.duration.getD 0
    if d ≠ 0 ∧ daysDiff ≤ ((d + durationSoFar : Nat) : Int) then
      scheduleLoopV1 daysDiff rest (durationSoFar + d) times
    else if d = 0 then
      some { times := some (times ++ ["08:00"]) }
    else
      let frequency := jsOrNat t.frequency 1
      if t.isAsNeeded then
        some { asNeeded := some true, max := some (jsOrNat t.frequencyMax frequency) }
      else
        let newTimes :=
          if frequency = 1 then times ++ ["08:00"]
          else if frequency = 2 then times ++ ["08:00", "20:00"]
          else if frequency = 3 then times ++ ["08:00", "14:00", "20:00"]
          else if frequency = 4 then times ++ ["08:00", "12:00", "16:00", "20:00"]
          else times
        scheduleLoopV1 daysDiff rest durationSoFar newTimes

/-- The copy of `getMedicationSchedule` at `MedicationCard.tsx` lines 485-529. -/
def getMedicationScheduleV1 (med : MedicationStatement) (dateDay currentDay : Int) :
    Option SimpleSchedule :=
  scheduleLoopV1 (dateDay - currentDay) med.timingSequence 0 []

/-- Loop of the copy in `src/unnamed/part_002` lines 125-150.  The skip test is
`timing.duration && daysDiff >= timing.duration + durationSoFar`, and a phase
without (truthy) duration returns `null`. -/
def scheduleLoopV2 (daysDiff : Int) :
    List Timing → Nat → List String → Option SimpleSchedule
  | [], _, times => some { times := some times }
  | t :: rest, durationSoFar, times =>
    let d := t.duration.getD 0
    if d ≠ 0 ∧ daysDiff ≥ ((d + durationSoFar : Nat) : Int) then
      scheduleLoopV2 daysDiff rest (durationSoFar + d) times
    else if d = 0 then none
    else
      let frequency := jsOrNat t.frequency 1
      if t.isAsNeeded then
        some { asNeeded := some true, max := some (jsOrNat t.frequencyMax frequency) }
      else
        let newTimes :=
          if frequency = 1 then times ++ ["08:00"]
          else if frequency = 2 then times ++ ["08:00", "20:00"]
          else if frequency = 3 then times ++ ["08:00", "14:00", "20:00"]
          else if frequency = 4 then times ++ ["08:00", "12:00", "16:00", "20:00"]
          else times
        scheduleLoopV2 daysDiff rest durationSoFar newTimes

/-- The copy of `getMedicationSchedule` in `src/unnamed/part_002` lines 112-155. -/
def getMedicationScheduleV2 (med : MedicationStatement) (dateDay currentDay : Int) :
    Option SimpleSchedule :=
  scheduleLoopV2 (dateDay - currentDay) med.timingSequence 0 []

/-! ## Derived notions used by the statements -/

/-- Window condition of the phase walk: `daysDiff` lies inside the activation
window of the phase `t` when the walk reaches it with window start `r`
(negation of the skip test at lines 1338-1353). -/
def windowMatches (t : Timing) (daysDiff : Int) (r : Nat) : Prop :=
  (r : Int) ≤ daysDiff ∧
    (0 < t.duration.getD 0 → daysDiff < ((r + t.duration.getD 0 : Nat) : Int))

instance (t : Timing) (daysDiff : Int) (r : Nat) :
    Decidable (windowMatches t daysDiff r) := by
  unfold windowMatches; infer_instance

/-- Clock times as the specification words them (§4.2(d)): the fixed table for
1-4 doses, `Math.round`-distribution between 08:00 and 20:00 for more than 4
(`step = 12/(frequency-1)` hours, rounded to the nearest whole hour, ties up),
and the degraded single `"08:00"` dose for an absent or zero frequency. -/
def specFrequencyTimes : Option Nat → List String
  | none => ["08:00"]
  | some 0 => ["08:00"]
  | some 1 => ["08:00"]
  | some 2 => ["08:00", "20:00"]
  | some 3 => ["08:00", "14:00", "20:00"]
  | some 4 => ["08:00", "12:00", "16:00", "20:00"]
  | some (n + 5) =>
    (List.range (n + 5)).map fun (i : ℕ) =>
      pad2 (round ((8 : ℚ) + 12 * (i : ℚ) / ((n : ℚ) + 4))).toNat ++ ":00"

/-- Chosen weekdays of a firing week as the specification words them
(§4.2(d)): `chosenWeekday[i] = (startWeekday + round(i*7/f)) mod 7`. -/
def specChosenWeekdays (startWeekday f : Nat) : List Nat :=
  (List.range f).map fun (i : ℕ) =>
    (startWeekday + (round (((i : ℚ) * 7) / (f : ℚ))).toNat) % 7

/-! ## Concrete fixtures used by counterexamples and witnesses -/

/-- C1: a phase of 2 weeks; the projector reads its window as 2 days. -/
def c1phase : Timing :=
  { frequency := some 1, duration := some 2, durationUnit := some "weeks" }

def c1med : MedicationStatement := { timingSequence := [c1phase] }

/-- C2: phase A of the two-phase example. -/
def c2phaseA : Timing :=
  { frequency := some 1, period := some 1, periodUnit := some "day", duration := some 7 }

/-- C2: open-ended phase B of the two-phase example. -/
def c2phaseB : Timing :=
  { frequency := some 2, period := some 1, periodUnit := some "day" }

def c2med : MedicationStatement := { timingSequence := [c2phaseA, c2phaseB] }

/-- Schedule of a single-daily calculated occurrence with dose amount 1. -/
def schedOnceDaily : MedicationSchedule :=
  { times := some ["08:00"], source := some .calculated, doseAmount := 1 }

/-- Schedule of a twice-daily calculated occurrence with dose amount 1. -/
def schedTwiceDaily : MedicationSchedule :=
  { times := some ["08:00", "20:00"], source := some .calculated, doseAmount := 1 }

/-- C3: a medication mixing bounded, weekday-gated and as-needed phases. -/
def c3med : MedicationStatement :=
  { timingSequence :=
      [{ frequency := some 2, duration := some 7 },
       { specificTimes := some ["09:00"], weekdays := some ["monday"] },
       { isAsNeeded := true }] }

/-- C4: as-needed phase with present-but-zero frequency and gating data. -/
def c4phase : Timing :=
  { isAsNeeded := true, frequency := some 0,
    specificTimes := some ["09:00"], weekdays := some ["monday"],
    period := some 3 }

def c4med : MedicationStatement := { timingSequence := [c4phase] }

/-- C5: explicit times on Mondays and Thursdays. -/
def c5phase : Timing :=
  { specificTimes := some ["09:00", "21:00"], weekdays := some ["monday", "thursday"] }

def c5med : MedicationStatement := { timingSequence := [c5phase] }

/-- C6: twice daily, every 2 days, with period unit `"days"`. -/
def c6phase : Timing :=
  { frequency := some 2, period := some 2, periodUnit := some "days" }

def c6med : MedicationStatement := { timingSequence := [c6phase] }

/-- C7: three doses per week, every 2 weeks. -/
def c7phase : Timing :=
  { frequency := some 3, period := some 2, periodUnit := some "week" }

def c7med : MedicationStatement := { timingSequence := [c7phase] }

/-- C8: a phase with `duration = 0`, then a distinguishable second phase. -/
def c8phase : Timing := { frequency := some 1, duration := some 0 }

def c8med : MedicationStatement := { timingSequence := [c8phase] }

/-- C9: a single bounded phase on which the two old copies disagree. -/
def c9phase : Timing := { frequency := some 1, duration := some 7 }

def c9med : MedicationStatement := { timingSequence := [c9phase] }

/-- C10: a simple three-times-daily medication. -/
def c10med : MedicationStatement := { timingSequence := [{ frequency := some 3 }] }

/-- Schedule of `c10med` on any date on/after the start. -/
def c10sched : MedicationSchedule :=
  { times := some ["08:00", "14:00", "20:00"], source := some .calculated, doseAmount := 1 }

/-! ## Shared lemmas -/

/-- When the window of the head phase contains `daysDiff`, the walk computes
the occurrence from that phase. -/
theorem scheduleWalk_cons_of_matched (t : Timing) (rest : List Timing)
    (daysDiff : Int) (w1 w2 r : Nat) (h : windowMatches t daysDiff r) :
    scheduleWalk daysDiff w1 w2 (t :: rest) r =
      computeOccurrence t daysDiff w1 w2 r := by
  obtain ⟨h1, h2⟩ := h
  simp only [scheduleWalk]
  by_cases hd : t.duration.getD 0 > 0
  · have hlt := h2 hd
    rw [if_pos hd, if_neg]
    push_cast at hlt ⊢
    omega
  · rw [if_neg hd, if_neg (by omega : ¬ daysDiff < (r : Int))]

/-- A negative day offset makes the walk skip every phase. -/
theorem scheduleWalk_neg_none (daysDiff : Int) (w1 w2 : Nat) (hneg : daysDiff < 0) :
    ∀ (ts : List Timing) (r : Nat), scheduleWalk daysDiff w1 w2 ts r = none := by
  intro ts
  induction ts with
  | nil => intro r; rfl
  | cons t rest ih =>
    intro r
    have h1 : daysDiff < (r : Int) := by omega
    simp only [scheduleWalk]
    by_cases hd : t.duration.getD 0 > 0
    · rw [if_pos hd, if_pos (Or.inl h1)]
      exact ih _
    · rw [if_neg hd, if_pos h1]
      exact ih _

/-- Rounding of a nonnegative rational quotient is floor division after
doubling: `round (a/b) = (2*a + b) / (2*b)`. -/
theorem round_div_toNat (a b : ℕ) (hb : 0 < b) :
    (round ((a : ℚ) / (b : ℚ))).toNat = (2 * a + b) / (2 * b) := by
  have hb0 : (b : ℚ) ≠ 0 := by positivity
  have h : (a : ℚ) / (b : ℚ) + 1 / 2 = ((2 * a + b : ℕ) : ℚ) / ((2 * b : ℕ) : ℚ) := by
    push_cast
    field_simp
    ring
  rw [round_eq, h, Int.floor_toNat, Nat.floor_div_eq_div]

/-- The specification's chosen-weekday formula coincides with the code's
natural-number rounding. -/
theorem specChosenWeekdays_eq (w f : Nat) :
    specChosenWeekdays w f =
      (List.range f).map fun i => (w + roundDiv (i * 7) f) % 7 := by
  rcases Nat.eq_zero_or_pos f with hf | hf
  · subst hf; rfl
  · unfold specChosenWeekdays
    apply List.map_congr_left
    intro i _
    have h : (round (((i : ℚ) * 7) / (f : ℚ))).toNat = roundDiv (i * 7) f := by
      have harg : ((i : ℚ) * 7) / (f : ℚ) = ((i * 7 : ℕ) : ℚ) / ((f : ℕ) : ℚ) := by
        push_cast; ring
      rw [harg, round_div_toNat (i * 7) f hf]; rfl
    rw [h]

/-- The specification's frequency-to-times table coincides with the code's
`timesForFrequency` after the code's `frequency || 1` defaulting. -/
theorem specFrequencyTimes_eq (o : Option Nat) :
    specFrequencyTimes o = timesForFrequency (jsOrZero (o.getD 0) 1) := by
  match o with
  | none => rfl
  | some 0 => rfl
  | some 1 => rfl
  | some 2 => rfl
  | some 3 => rfl
  | some 4 => rfl
  | some (n + 5) =>
    show specFrequencyTimes (some (n + 5)) = timesForFrequency (n + 5)
    simp only [specFrequencyTimes]
    unfold timesForFrequency
    rw [if_neg (by omega), if_neg (by omega), if_neg (by omega), if_neg (by omega),
      if_neg (by omega)]
    apply List.map_congr_left
    intro i _
    have h54 : n + 5 - 1 = n + 4 := by omega
    rw [h54]
    have harg : (8 : ℚ) + 12 * (i : ℚ) / ((n : ℚ) + 4) =
        ((8 * (n + 4) + 12 * i : ℕ) : ℚ) / ((n + 4 : ℕ) : ℚ) := by
      have hb0 : ((n : ℚ) + 4) ≠ 0 := by positivity
      push_cast
      field_simp
    rw [harg, round_div_toNat (8 * (n + 4) + 12 * i) (n + 4) (by omega)]
    rfl

/-- A period unit starting with "week" does not start with "day". -/
theorem week_not_day {s : String} (h : strStartsWith s "week" = true) :
    strStartsWith s "day" = false := by
  unfold strStartsWith at h ⊢
  obtain ⟨tl, htl⟩ := of_decide_eq_true h
  rw [decide_eq_false_iff_not]
  rintro ⟨u, hu⟩
  rw [← htl] at hu
  have hw : "week".data = ['w', 'e', 'e', 'k'] := by decide
  have hd : "day".data = ['d', 'a', 'y'] := by decide
  rw [hw, hd] at hu
  simp at hu

/-- The code's `frequency || 1` is never zero. -/
theorem jsOrZero_one_ne_zero (n : Nat) : jsOrZero n 1 ≠ 0 := by
  unfold jsOrZero
  split <;> simp_all

/-- Lists from `timesForFrequency` are non-empty for every positive frequency. -/
theorem timesForFrequency_ne_nil (f : Nat) (hf : f ≠ 0) :
    timesForFrequency f ≠ [] := by
  unfold timesForFrequency
  split_ifs <;>
    simp_all [List.map_eq_nil_iff, List.range_eq_nil]

/-- The chosen weekdays of the weekly calculated branch are pairwise distinct
(for the clamped frequencies 1-7 and the seven possible start weekdays). -/
theorem chosenWeekdays_nodup_aux :
    ∀ f < 8, ∀ w < 7,
      ((List.range f).map fun i => (w + roundDiv (i * 7) f) % 7).Nodup := by
  decide

/-- Characterization of the occurrence of a matched phase in the calculated
daily branch: no usable explicit times or categories, period unit starting
with "day". -/
theorem computeOccurrence_day (t : Timing) (daysDiff : Int) (w1 w2 r : Nat)
    (hA : t.isAsNeeded = false)
    (hst : t.specificTimes.getD [] = [])
    (hcat : (t.timeCategories.getD []).filterMap categoryToTime = [])
    (hday : strStartsWith (toLowerStr (jsOrStr t.periodUnit "day")) "day" = true)
    (hr : (r : Int) ≤ daysDiff) :
    computeOccurrence t daysDiff w1 w2 r =
      if (daysDiff - (r : Int)) % (max 1 ((jsOrNat t.period 1 : Nat) : Int)) = 0 then
        some { times := some (timesForFrequency (jsOrZero (t.frequency.getD 0) 1)),
               source := some .calculated,
               doseAmount := t.doseAmount, doseUnit := t.doseUnit }
      else none := by
  simp only [computeOccurrence, hA, Bool.false_eq_true, if_false, hst,
    List.length_nil, lt_irrefl, gt_iff_lt, hcat, eq_self_iff_true, if_true, ite_self]
  simp only [calculatedOccurrence, hday, if_true]
  rw [if_neg (by omega : ¬ daysDiff - (r : Int) < 0)]
  by_cases hmod : (daysDiff - (r : Int)) % (max 1 ((jsOrNat t.period 1 : Nat) : Int)) = 0
  · rw [if_neg (fun hcontra => hcontra hmod), if_pos hmod]
  · rw [if_pos hmod, if_neg hmod]

/-- Characterization of the occurrence of a matched phase in the calculated
weekly branch: no usable explicit times or categories, period unit starting
with "week". -/
theorem computeOccurrence_week (t : Timing) (daysDiff : Int) (w1 w2 r : Nat)
    (hA : t.isAsNeeded = false)
    (hst : t.specificTimes.getD [] = [])
    (hcat : (t.timeCategories.getD []).filterMap categoryToTime = [])
    (hweek : strStartsWith (toLowerStr (jsOrStr t.periodUnit "day")) "week" = true)
    (hr : (r : Int) ≤ daysDiff) :
    computeOccurrence t daysDiff w1 w2 r =
      if ((daysDiff - (r : Int)) / 7) % (max 1 ((jsOrNat t.period 1 : Nat) : Int)) = 0 ∧
          ((List.range (min 7 (max 1 (jsOrZero (t.frequency.getD 0) 1)))).map
              fun i =>
                (w2 + roundDiv (i * 7) (min 7 (max 1 (jsOrZero (t.frequency.getD 0) 1)))) % 7).contains
            w1 = true then
        some { times := some (timesForFrequency (min 7 (max 1 (jsOrZero (t.frequency.getD 0) 1)))),
               source := some .calculated,
               doseAmount := t.doseAmount, doseUnit := t.doseUnit }
      else none := by
  have hnd : strStartsWith (toLowerStr (jsOrStr t.periodUnit "day")) "day" = false :=
    week_not_day hweek
  simp only [computeOccurrence, hA, Bool.false_eq_true, if_false, hst,
    List.length_nil, lt_irrefl, gt_iff_lt, hcat, eq_self_iff_true, if_true, ite_self]
  simp only [calculatedOccurrence, hnd, Bool.false_eq_true, if_false, hweek, if_true]
  rw [if_neg (by omega : ¬ daysDiff - (r : Int) < 0)]
  by_cases hmod :
      ((daysDiff - (r : Int)) / 7) % (max 1 ((jsOrNat t.period 1 : Nat) : Int)) = 0
  · rw [if_neg (fun hcontra => hcontra hmod)]
    by_cases hc :
        ((List.range (min 7 (max 1 (jsOrZero (t.frequency.getD 0) 1)))).map
            fun i =>
              (w2 + roundDiv (i * 7) (min 7 (max 1 (jsOrZero (t.frequency.getD 0) 1)))) % 7).contains
          w1 = true
    · rw [if_pos hc, if_pos ⟨hmod, hc⟩]
    · rw [if_neg hc, if_neg (fun hcontra => hc hcontra.2)]
  · rw [if_pos hmod, if_neg (fun hcontra => hmod hcontra.1)]

/-- The explicit-times branch only ever returns the `specificTimes` list. -/
theorem explicitTimesOccurrence_times (t : Timing) (st : List String)
    (daysDiff : Int) (w1 r : Nat) (s : MedicationSchedule)
    (h : explicitTimesOccurrence t st daysDiff w1 r = some s) :
    s.times = some st := by
  simp only [explicitTimesOccurrence] at h
  split_ifs at h
  all_goals first
    | exact Option.noConfusion h
    | (cases Option.some.inj h; rfl)

/-- The category branch only ever returns the mapped category times. -/
theorem categoryOccurrence_times (t : Timing) (mapped : List String)
    (daysDiff : Int) (w1 r : Nat) (s : MedicationSchedule)
    (h : categoryOccurrence t mapped daysDiff w1 r = some s) :
    s.times = some mapped := by
  simp only [categoryOccurrence] at h
  split_ifs at h
  all_goals first
    | exact Option.noConfusion h
    | (cases Option.some.inj h; rfl)

/-- Every schedule produced by the calculated branch carries a non-empty
times list. -/
theorem calculatedOccurrence_times (t : Timing) (daysDiff : Int) (w1 w2 r : Nat)
    (s : MedicationSchedule) (h : calculatedOccurrence t daysDiff w1 w2 r = some s) :
    ∃ l, s.times = some l ∧ l ≠ [] := by
  have h1 : jsOrZero (t.frequency.getD 0) 1 ≠ 0 := jsOrZero_one_ne_zero _
  have h2 : min 7 (max 1 (jsOrZero (t.frequency.getD 0) 1)) ≠ 0 := by
    have hle : 1 ≤ min 7 (max 1 (jsOrZero (t.frequency.getD 0) 1)) :=
      le_min (by omega) (le_max_left 1 _)
    omega
  simp only [calculatedOccurrence] at h
  split_ifs at h
  all_goals first
    | exact Option.noConfusion h
    | (cases Option.some.inj h
       exact ⟨_, rfl, timesForFrequency_ne_nil _ h1⟩)
    | (cases Option.some.inj h
       exact ⟨_, rfl, timesForFrequency_ne_nil _ h2⟩)

/-- Every non-as-needed schedule produced for a matched phase carries a
non-empty times list. -/
theorem computeOccurrence_times_nonempty (t : Timing) (daysDiff : Int)
    (w1 w2 r : Nat) (s : MedicationSchedule)
    (h : computeOccurrence t daysDiff w1 w2 r = some s)
    (hA : s.asNeeded ≠ some true) :
    ∃ l, s.times = some l ∧ l ≠ [] := by
  simp only [computeOccurrence] at h
  split_ifs at h with ha hstl hcatl hmapl
  · cases Option.some.inj h
    exact absurd rfl hA
  · have hne : t.specificTimes.getD [] ≠ [] := by
      intro hnil
      rw [hnil] at hstl
      simp at hstl
    rw [explicitTimesOccurrence_times t _ daysDiff w1 r s h]
    exact ⟨_, rfl, hne⟩
  · exact calculatedOccurrence_times t daysDiff w1 w2 r s h
  · have hne : (t.timeCategories.getD []).filterMap categoryToTime ≠ [] := by
      intro hnil
      rw [hnil] at hmapl
      simp at hmapl
    rw [categoryOccurrence_times t _ daysDiff w1 r s h]
    exact ⟨_, rfl, hne⟩
  · exact calculatedOccurrence_times t daysDiff w1 w2 r s h

/-- Walk-level form of the non-empty-times invariant. -/
theorem scheduleWalk_times_nonempty (daysDiff : Int) (w1 w2 : Nat)
    (s : MedicationSchedule) (hA : s.asNeeded ≠ some true) :
    ∀ (ts : List Timing) (r : Nat),
      scheduleWalk daysDiff w1 w2 ts r = some s → ∃ l, s.times = some l ∧ l ≠ [] := by
  intro ts
  induction ts with
  | nil => intro r h; exact Option.noConfusion h
  | cons t rest ih =>
    intro r h
    simp only [scheduleWalk] at h
    by_cases hd : t.duration.getD 0 > 0
    · rw [if_pos hd] at h
      by_cases hskip : daysDiff < (r : Int) ∨
          daysDiff ≥ ((r + t.duration.getD 0 : Nat) : Int)
      · rw [if_pos hskip] at h
        exact ih _ h
      · rw [if_neg hskip] at h
        exact computeOccurrence_times_nonempty t daysDiff w1 w2 r s h hA
    · rw [if_neg hd] at h
      by_cases hskip : daysDiff < (r : Int)
      · rw [if_pos hskip] at h
        exact ih _ h
      · rw [if_neg hskip] at h
        exact computeOccurrence_times_nonempty t daysDiff w1 w2 r s h hA

/-! ## Claims -/

/-- C9 (confirmed): the duplicated copies of the schedule-projection logic are
not semantically equivalent.  On a medication whose single phase is bounded
(`duration = 7`, `frequency = 1`) and the target date 3 days after the start,
the copy at `MedicationCard.tsx` 485-529 (whose boundary check skips when
`daysDiff <= duration + durationSoFar`) returns an empty-times schedule,
while the copy in `src/unnamed/part_002` (which skips when
`daysDiff >= duration + durationSoFar`) returns a single-dose schedule: the
inverted comparison inverts which days fall inside the bounded window. -/
theorem c9_divergent_duplicates :
    getMedicationScheduleV1 c9med 3 0 = some { times := some [] } ∧
    getMedicationScheduleV2 c9med 3 0 = some { times := some ["08:00"] } ∧
    getMedicationScheduleV1 c9med 3 0 ≠ getMedicationScheduleV2 c9med 3 0 :=
  ⟨by decide, by decide, by decide⟩

/-- C3 (confirmed): a target date whose day offset from the regimen start is
negative always yields `null`, for every medication whatsoever. -/
theorem c3_negative_offset_null (med : MedicationStatement)
    (dateDay currentDay : Int) (h : dateDay - currentDay < 0) :
    getMedicationSchedule med dateDay currentDay = none := by
  unfold getMedicationSchedule
  exact scheduleWalk_neg_none _ _ _ h _ _

/-- Witness for C3: a medication mixing bounded, weekday-gated and as-needed
phases, one day before the regimen start. -/
theorem c3_negative_offset_null_witness :
    getMedicationSchedule c3med (-1) 0 = none :=
  c3_negative_offset_null c3med (-1) 0 (by decide)

/-- C1 counterexample: the claim's `durationUnit` conversion does not happen.
`c1phase` has `duration = 2`, `durationUnit = "weeks"`; per the claim its
window would be 14 days, so days 2 and 13 would still show the single-daily
occurrence.  The code instead uses `duration` as a bare day count: the phase
fires on day 1 but the projector returns `null` from day 2 on. -/
theorem c1_duration_unit_counterexample :
    getMedicationSchedule c1med 1 0 =
      some { times := some ["08:00"], source := some .calculated, doseAmount := 1 } ∧
    getMedicationSchedule c1med 2 0 = none ∧
    getMedicationSchedule c1med 13 0 = none :=
  ⟨by decide, by decide, by decide⟩

/-- C1 (amended): the projector takes a present `duration` as the phase's
window length in days as-is; `durationUnit` is ignored (no ×7/×30/×365.25
conversion).  For a single-phase medication with `duration = d > 0`, the
occurrence is computed from the phase exactly on day offsets in `[0, d)` and
is `null` outside, whatever `durationUnit` holds. -/
theorem c1_window_length_is_duration (t : Timing) (d : Nat)
    (hd : t.duration = some d) (hpos : 0 < d) (dateDay startDay : Int) :
    getMedicationSchedule { timingSequence := [t] } dateDay startDay =
      if 0 ≤ dateDay - startDay ∧ dateDay - startDay < (d : Int) then
        computeOccurrence t (dateDay - startDay) (dayOfWeek dateDay)
          (dayOfWeek startDay) 0
      else none := by
  unfold getMedicationSchedule
  simp only [scheduleWalk, hd, Option.getD_some]
  rw [if_pos hpos]
  by_cases h : 0 ≤ dateDay - startDay ∧ dateDay - startDay < (d : Int)
  · rw [if_pos h, if_neg]
    push_cast
    omega
  · have hcond : dateDay - startDay < ((0 : Nat) : Int) ∨
        dateDay - startDay ≥ (((0 + d : Nat) : Nat) : Int) := by
      push_cast
      omega
    rw [if_neg h, if_pos hcond]

/-- Witness for C1 (amended): the 2-"weeks" phase fires on day 1. -/
theorem c1_window_length_witness :
    getMedicationSchedule { timingSequence := [c1phase] } 1 0 =
      some { times := some ["08:00"], source := some .calculated, doseAmount := 1 } := by
  have h := c1_window_length_is_duration c1phase 2 rfl (by decide) 1 0
  rw [h]
  decide

/-- C8 counterexample: a phase with `duration = 0` is not skipped.  On the
single-phase medication `c8med` (`duration = 0`, `frequency = 1`) the claim
predicts `null` for every date, but day 5 produces a calculated occurrence
from that very phase. -/
theorem c8_zero_duration_counterexample :
    getMedicationSchedule c8med 5 0 =
      some { times := some ["08:00"], source := some .calculated, doseAmount := 1 } :=
  by decide

/-- C8 (amended): because `timing.duration || 0` conflates `0` with absent,
a phase with `duration = 0` is treated as open-ended, not skipped: once the
day offset reaches its window start the phase itself produces the occurrence,
and for earlier offsets the walk moves on with the window start unchanged. -/
theorem c8_zero_duration_open_ended (t : Timing) (ht : t.duration = some 0)
    (rest : List Timing) (daysDiff : Int) (w1 w2 r : Nat) :
    scheduleWalk daysDiff w1 w2 (t :: rest) r =
      if daysDiff < (r : Int) then scheduleWalk daysDiff w1 w2 rest r
      else computeOccurrence t daysDiff w1 w2 r := by
  simp only [scheduleWalk, ht, Option.getD_some, lt_irrefl, gt_iff_lt, if_false,
    Nat.add_zero]

/-- Witness for C8 (amended): the zero-duration phase of `c8med` fires on
day 5. -/
theorem c8_zero_duration_witness :
    scheduleWalk 5 0 0 [c8phase] 0 =
      some { times := some ["08:00"], source := some .calculated, doseAmount := 1 } := by
  have h := c8_zero_duration_open_ended c8phase rfl [] 5 0 0 0
  rw [h]
  decide

/-- C4 counterexample: for an as-needed phase with a present-but-zero
`frequency` and no `frequencyMax`, the claim's `frequencyMax ?? frequency ?? 1`
demands `max = 0`, but the code's `timing.frequencyMax || (timing.frequency || 1)`
treats the zero as falsy and yields `max = 1`. -/
theorem c4_as_needed_max_counterexample :
    c4phase.frequency = some 0 ∧ c4phase.frequencyMax = none ∧
    getMedicationSchedule c4med 0 0 =
      some { asNeeded := some true, max := some 1, doseAmount := 1 } :=
  ⟨rfl, rfl, by decide⟩

/-- C4 (amended): a matched as-needed phase always returns
`{asNeeded: true, max, doseAmount, doseUnit}`, ignoring `weekdays`, `period`
and `specificTimes`, with `max = frequencyMax || (frequency || 1)` under
JavaScript falsy coalescing (a present-but-zero `frequency` or `frequencyMax`
counts as absent, so `max` falls back to 1, never 0). -/
theorem c4_as_needed_occurrence (t : Timing) (rest : List Timing)
    (daysDiff : Int) (w1 w2 r : Nat) (hA : t.isAsNeeded = true)
    (hwin : windowMatches t daysDiff r) :
    scheduleWalk daysDiff w1 w2 (t :: rest) r =
      some { asNeeded := some true,
             max := some (jsOrNat t.frequencyMax (jsOrNat t.frequency 1)),
             doseAmount := t.doseAmount, doseUnit := t.doseUnit } := by
  rw [scheduleWalk_cons_of_matched t rest daysDiff w1 w2 r hwin]
  simp only [computeOccurrence, hA, if_true]

/-- Witness for C4 (amended): the gated as-needed phase `c4phase` (with
`specificTimes`, `weekdays` and `period` present and `frequency = 0`) yields
the as-needed occurrence with `max = 1` on a matched day. -/
theorem c4_as_needed_witness :
    scheduleWalk 0 2 0 [c4phase] 0 =
      some { asNeeded := some true, max := some 1, doseAmount := 1 } := by
  have h := c4_as_needed_occurrence c4phase [] 0 2 0 0 rfl (by decide)
  rw [h]
  decide

/-- When the window of the head phase does not contain `daysDiff`, the walk
advances the window start by the phase's duration days and moves on. -/
theorem scheduleWalk_cons_skip (t : Timing) (rest : List Timing) (daysDiff : Int)
    (w1 w2 r : Nat) (h : ¬ windowMatches t daysDiff r) :
    scheduleWalk daysDiff w1 w2 (t :: rest) r =
      scheduleWalk daysDiff w1 w2 rest (r + t.duration.getD 0) := by
  simp only [scheduleWalk]
  by_cases hd : t.duration.getD 0 > 0
  · have hcond : daysDiff < (r : Int) ∨
        daysDiff ≥ ((r + t.duration.getD 0 : Nat) : Int) := by
      unfold windowMatches at h
      push_cast at h ⊢
      omega
    rw [if_pos hd, if_pos hcond]
  · have hcond : daysDiff < (r : Int) := by
      unfold windowMatches at h
      omega
    rw [if_neg hd, if_pos hcond]

/-- C5 (confirmed): a matched non-as-needed phase with non-empty
`specificTimes` and non-empty `weekdays` returns exactly the `specificTimes`
list verbatim with source "explicit" when the target date's weekday name is a
member of the (lowercased) weekdays, and `null` otherwise — without
consulting any later phase. -/
theorem c5_explicit_weekday_gating (t : Timing) (st wd : List String)
    (rest : List Timing) (daysDiff : Int) (w1 w2 r : Nat)
    (hA : t.isAsNeeded = false)
    (hst : t.specificTimes = some st) (hstne : st ≠ [])
    (hwd : t.weekdays = some wd) (hwdne : wd ≠ [])
    (hwin : windowMatches t daysDiff r) :
    scheduleWalk daysDiff w1 w2 (t :: rest) r =
      if (wd.map toLowerStr).contains (weekdayNames.getD w1 "") then
        some { times := some st, source := some .explicit,
               explicitWeekdays := some wd, timeCategories := t.timeCategories,
               doseAmount := t.doseAmount, doseUnit := t.doseUnit }
      else none := by
  rw [scheduleWalk_cons_of_matched t rest daysDiff w1 w2 r hwin]
  simp only [computeOccurrence, hA, Bool.false_eq_true, if_false, hst,
    Option.getD_some]
  rw [if_pos (List.length_pos.mpr hstne)]
  simp only [explicitTimesOccurrence, hwd, Option.getD_some]
  rw [if_pos (List.length_pos.mpr hwdne)]

/-- Witness for C5: `c5phase` (explicit 09:00/21:00 on monday/thursday) fires
on a Monday (day offset 1 from a Sunday start) and is `null` on the Tuesday
right after. -/
theorem c5_explicit_weekday_witness :
    (scheduleWalk 1 1 0 [c5phase] 0 =
      some { times := some ["09:00", "21:00"], source := some .explicit,
             explicitWeekdays := some ["monday", "thursday"], doseAmount := 1 }) ∧
    scheduleWalk 2 2 0 [c5phase] 0 = none := by
  constructor
  · have h := c5_explicit_weekday_gating c5phase ["09:00", "21:00"]
      ["monday", "thursday"] [] 1 1 0 0 rfl rfl (by decide) rfl (by decide) (by decide)
    rw [h]
    decide
  · have h := c5_explicit_weekday_gating c5phase ["09:00", "21:00"]
      ["monday", "thursday"] [] 2 2 0 0 rfl rfl (by decide) rfl (by decide) (by decide)
    rw [h]
    decide

/-- C2 (confirmed): for phase A (`frequency=1, period=1, periodUnit="day",
duration=7`) followed by open-ended phase B (`frequency=2, period=1,
periodUnit="day"`), the projector returns the single-daily list on day
offsets 0-6 and the twice-daily list from day offset 7 on: the bounded
window is exclusive of its end day and phase B starts exactly at offset 7. -/
theorem c2_two_phase_boundary (dateDay startDay : Int) :
    (0 ≤ dateDay - startDay → dateDay - startDay < 7 →
      getMedicationSchedule c2med dateDay startDay = some schedOnceDaily) ∧
    (7 ≤ dateDay - startDay →
      getMedicationSchedule c2med dateDay startDay = some schedTwiceDaily) := by
  constructor
  · intro h0 h7
    unfold getMedicationSchedule
    simp only [c2med]
    have hm : windowMatches c2phaseA (dateDay - startDay) 0 := by
      unfold windowMatches
      simp only [c2phaseA, Option.getD_some]
      omega
    rw [scheduleWalk_cons_of_matched _ _ _ _ _ _ hm,
      computeOccurrence_day c2phaseA (dateDay - startDay) _ _ 0 rfl rfl rfl
        (by decide) (by omega)]
    have hper : (max 1 ((jsOrNat c2phaseA.period 1 : Nat) : Int)) = 1 := by decide
    rw [hper, if_pos (Int.emod_one _)]
    decide
  · intro h7
    unfold getMedicationSchedule
    simp only [c2med]
    have hm : ¬ windowMatches c2phaseA (dateDay - startDay) 0 := by
      unfold windowMatches
      simp only [c2phaseA, Option.getD_some]
      rintro ⟨h1, h2⟩
      have h3 := h2 (by norm_num)
      push_cast at h3
      omega
    rw [scheduleWalk_cons_skip _ _ _ _ _ _ hm,
      show 0 + c2phaseA.duration.getD 0 = 7 from rfl]
    have hm2 : windowMatches c2phaseB (dateDay - startDay) 7 := by
      unfold windowMatches
      simp only [c2phaseB, Option.getD_none]
      omega
    rw [scheduleWalk_cons_of_matched _ _ _ _ _ _ hm2,
      computeOccurrence_day c2phaseB (dateDay - startDay) _ _ 7 rfl rfl rfl
        (by decide) (by push_cast; omega)]
    have hper : (max 1 ((jsOrNat c2phaseB.period 1 : Nat) : Int)) = 1 := by decide
    rw [hper, if_pos (Int.emod_one _)]
    decide

/-- Witness for C2: day offsets 3 (single daily) and 10 (twice daily). -/
theorem c2_two_phase_boundary_witness :
    getMedicationSchedule c2med 3 0 = some schedOnceDaily ∧
    getMedicationSchedule c2med 10 0 = some schedTwiceDaily :=
  ⟨(c2_two_phase_boundary 3 0).1 (by decide) (by decide),
   (c2_two_phase_boundary 10 0).2 (by decide)⟩

/-- C6 (confirmed): a matched non-as-needed phase without `specificTimes` or
usable `timeCategories` whose period unit starts with "day" fires exactly on
day offsets with `(dayOffset - windowStart) mod max(1, period) = 0`, and on a
firing day returns, with source "calculated", the times determined solely by
`frequency` through the specification's table `specFrequencyTimes` (fixed
lists for 1-4, even distribution from 08:00 to 20:00 with step `12/(f-1)`
hours rounded to the nearest hour for `f > 4`, and the degraded `["08:00"]`
for an absent or zero frequency). -/
theorem c6_daily_calculated (t : Timing) (rest : List Timing) (daysDiff : Int)
    (w1 w2 r : Nat)
    (hA : t.isAsNeeded = false)
    (hst : t.specificTimes.getD [] = [])
    (hcat : (t.timeCategories.getD []).filterMap categoryToTime = [])
    (hday : strStartsWith (toLowerStr (jsOrStr t.periodUnit "day")) "day" = true)
    (hwin : windowMatches t daysDiff r) :
    scheduleWalk daysDiff w1 w2 (t :: rest) r =
      if (daysDiff - (r : Int)) % (max 1 ((jsOrNat t.period 1 : Nat) : Int)) = 0 then
        some { times := some (specFrequencyTimes t.frequency),
               source := some .calculated,
               doseAmount := t.doseAmount, doseUnit := t.doseUnit }
      else none := by
  rw [scheduleWalk_cons_of_matched t rest daysDiff w1 w2 r hwin,
    computeOccurrence_day t daysDiff w1 w2 r hA hst hcat hday hwin.1,
    specFrequencyTimes_eq]

/-- Witness for C6: `c6phase` (`frequency=2`, every 2 days, unit `"days"`)
fires twice daily on day offset 4 and not on day offset 3. -/
theorem c6_daily_calculated_witness :
    (scheduleWalk 4 0 0 [c6phase] 0 =
      some { times := some ["08:00", "20:00"], source := some .calculated,
             doseAmount := 1 }) ∧
    scheduleWalk 3 0 0 [c6phase] 0 = none := by
  constructor
  · have h := c6_daily_calculated c6phase [] 4 0 0 0 rfl rfl rfl (by decide) (by decide)
    rw [h]
    decide
  · have h := c6_daily_calculated c6phase [] 3 0 0 0 rfl rfl rfl (by decide) (by decide)
    rw [h]
    decide

/-- C7 (confirmed): a matched non-as-needed phase without `specificTimes` or
usable `timeCategories` whose period unit starts with "week" fires only when
`floor((dayOffset - windowStart)/7) mod max(1, period) = 0` and the target
weekday is one of the `f` distinct weekdays
`(startWeekday + round(i*7/f)) mod 7` (`f` = frequency clamped to 1-7), in
which case it returns the frequency time table with source "calculated";
otherwise `null`.  The chosen weekday list has no duplicates. -/
theorem c7_weekly_calculated (t : Timing) (rest : List Timing) (daysDiff : Int)
    (w1 w2 r : Nat)
    (hA : t.isAsNeeded = false)
    (hst : t.specificTimes.getD [] = [])
    (hcat : (t.timeCategories.getD []).filterMap categoryToTime = [])
    (hweek : strStartsWith (toLowerStr (jsOrStr t.periodUnit "day")) "week" = true)
    (hw2 : w2 < 7) (hwin : windowMatches t daysDiff r) :
    (scheduleWalk daysDiff w1 w2 (t :: rest) r =
      if ((daysDiff - (r : Int)) / 7) % (max 1 ((jsOrNat t.period 1 : Nat) : Int)) = 0 ∧
          w1 ∈ specChosenWeekdays w2 (min 7 (max 1 (jsOrZero (t.frequency.getD 0) 1))) then
        some { times := some (specFrequencyTimes
                 (some (min 7 (max 1 (jsOrZero (t.frequency.getD 0) 1))))),
               source := some .calculated,
               doseAmount := t.doseAmount, doseUnit := t.doseUnit }
      else none) ∧
    (specChosenWeekdays w2 (min 7 (max 1 (jsOrZero (t.frequency.getD 0) 1)))).Nodup := by
  have hF1 : min 7 (max 1 (jsOrZero (t.frequency.getD 0) 1)) ≠ 0 := by
    have hle : 1 ≤ min 7 (max 1 (jsOrZero (t.frequency.getD 0) 1)) :=
      le_min (by omega) (le_max_left 1 _)
    omega
  constructor
  · rw [scheduleWalk_cons_of_matched t rest daysDiff w1 w2 r hwin,
      computeOccurrence_week t daysDiff w1 w2 r hA hst hcat hweek hwin.1,
      specChosenWeekdays_eq]
    have hts : specFrequencyTimes
        (some (min 7 (max 1 (jsOrZero (t.frequency.getD 0) 1)))) =
        timesForFrequency (min 7 (max 1 (jsOrZero (t.frequency.getD 0) 1))) := by
      rw [specFrequencyTimes_eq]
      simp only [Option.getD_some]
      congr 1
      have hjs : ∀ m : Nat, m ≠ 0 → jsOrZero m 1 = m := by
        intro m hm
        unfold jsOrZero
        rw [if_neg hm]
      exact hjs _ hF1
    rw [hts]
    apply if_congr _ rfl rfl
    constructor
    · rintro ⟨h1, h2⟩
      exact ⟨h1, by simpa using h2⟩
    · rintro ⟨h1, h2⟩
      exact ⟨h1, by simpa using h2⟩
  · rw [specChosenWeekdays_eq]
    exact chosenWeekdays_nodup_aux _
      (lt_of_le_of_lt (Nat.min_le_left _ _) (by norm_num)) w2 hw2

/-- Witness for C7: `c7phase` (3 per week, every 2 weeks) with a Sunday start
fires three times on day offset 2 (a chosen weekday of the on-week) and is
`null` on day offset 9 (the off-week). -/
theorem c7_weekly_calculated_witness :
    (scheduleWalk 2 2 0 [c7phase] 0 =
      some { times := some ["08:00", "14:00", "20:00"], source := some .calculated,
             doseAmount := 1 }) ∧
    scheduleWalk 9 2 0 [c7phase] 0 = none := by
  constructor
  · have h := (c7_weekly_calculated c7phase [] 2 2 0 0 rfl rfl rfl (by decide)
      (by decide) (by decide)).1
    rw [h, specChosenWeekdays_eq]
    decide
  · have h := (c7_weekly_calculated c7phase [] 9 2 0 0 rfl rfl rfl (by decide)
      (by decide) (by decide)).1
    rw [h, specChosenWeekdays_eq]
    decide

/-- C10 (confirmed): whenever the full projector returns a schedule that is
not as-needed, its times list is present and non-empty. -/
theorem c10_nonempty_times (med : MedicationStatement) (dateDay currentDay : Int)
    (s : MedicationSchedule)
    (h : getMedicationSchedule med dateDay currentDay = some s)
    (hA : s.asNeeded ≠ some true) :
    ∃ l, s.times = some l ∧ l ≠ [] := by
  unfold getMedicationSchedule at h
  exact scheduleWalk_times_nonempty _ _ _ s hA _ _ h

/-- Witness for C10: the three-times-daily `c10med` on its start date. -/
theorem c10_nonempty_times_witness :
    ∃ l, c10sched.times = some l ∧ l ≠ [] :=
  c10_nonempty_times c10med 0 0 c10sched (by decide) (by decide)
